import Mathlib

/-!
# Verification of the grpc-ease reflection client

Shallow embedding of `src/reflection.rs` (the `ReflectionClient` of the
grpc-ease crate) together with the data model of `src/service_info.rs` and the
wire-protocol messages it consumes (from `tonic_reflection::pb` and
`prost_types`).

The network is modelled as an environment `Env`: for each exchange (numbered
`0, 1, 2, ...` in the order the client opens them within one run) and the
request the client sends on that exchange, the environment determines what the
transport and the server deliver back (`ExchangeReply`).  The protobuf
descriptor decoder (`prost_types::FileDescriptorProto::decode`) is an external
library function, so it is a parameter `decode` of the embedding.

Every operation is embedded as a function returning an `Outcome` (ok / error /
panicked, since the Rust code can panic via `.expect`) paired, for the public
operations, with the trace of `ServerReflectionRequest`s issued, in order.
-/

set_option autoImplicit false

namespace GrpcEase

/-- Raw descriptor payload bytes (`Vec<u8>` on the wire). -/
abbrev Bytes := List Nat

/-! ## Wire protocol messages (`tonic_reflection::pb`) -/

/-- Payload of `MessageRequest::FileContainingExtension`. -/
structure ExtensionRequest where
  containing_type : String
  extension_number : Int
  deriving Repr, DecidableEq

/-- The request oneof of `ServerReflectionRequest`.  The client under
verification only ever issues `listServices` and `fileContainingSymbol`. -/
inductive MessageRequest where
  | fileByFilename (v : String)
  | fileContainingSymbol (v : String)
  | fileContainingExtension (v : ExtensionRequest)
  | allExtensionNumbersOfType (v : String)
  | listServices (v : String)
  deriving Repr, DecidableEq

/-- `ServerReflectionRequest`: a host plus an optional request oneof
(the fields the client writes; it always sets `host` to `""`). -/
structure ServerReflectionRequest where
  host : String
  message_request : Option MessageRequest
  deriving Repr, DecidableEq

/-- One entry of `ListServiceResponse.service`. -/
structure ServiceResponse where
  name : String
  deriving Repr, DecidableEq

/-- `ListServiceResponse`: the service-name list of phase 1. -/
structure ListServiceResponse where
  service : List ServiceResponse
  deriving Repr, DecidableEq

/-- `FileDescriptorResponse`: serialized `FileDescriptorProto` payloads. -/
structure FileDescriptorResponse where
  file_descriptor_proto : List Bytes
  deriving Repr, DecidableEq

/-- `ExtensionNumberResponse` (never expected by this client). -/
structure ExtensionNumberResponse where
  base_type_name : String
  extension_number : List Int
  deriving Repr, DecidableEq

/-- `ErrorResponse` (never expected by this client). -/
structure ErrorResponse where
  error_code : Int
  error_message : String
  deriving Repr, DecidableEq

/-- The response oneof of `ServerReflectionResponse`
(`server_reflection_response::MessageResponse`). -/
inductive MessageResponse where
  | fileDescriptorResponse (r : FileDescriptorResponse)
  | allExtensionNumbersResponse (r : ExtensionNumberResponse)
  | listServicesResponse (r : ListServiceResponse)
  | errorResponse (r : ErrorResponse)
  deriving Repr, DecidableEq

/-! ## Decoded descriptors (`prost_types`), fields read by the client -/

/-- `prost_types::MethodDescriptorProto`, restricted to the fields the client
reads (`name`, `input_type`, `output_type`; all `Option<String>`). -/
structure MethodDescriptorProto where
  name : Option String
  input_type : Option String
  output_type : Option String
  deriving Repr, DecidableEq

/-- `prost_types::ServiceDescriptorProto`, restricted to the fields the client
reads (`name : Option<String>`, `method : Vec<MethodDescriptorProto>`). -/
structure ServiceDescriptorProto where
  name : Option String
  method : List MethodDescriptorProto
  deriving Repr, DecidableEq

/-- `prost_types::FileDescriptorProto`, restricted to the fields the client
reads (`package : Option<String>`, `service : Vec<ServiceDescriptorProto>`). -/
structure FileDescriptorProto where
  package : Option String
  service : List ServiceDescriptorProto
  deriving Repr, DecidableEq

/-! ## Catalog model (`src/service_info.rs` versus `src/reflection.rs`)

`src/service_info.rs` declares `MethodInfo` with the single field `name`,
while `src/reflection.rs` constructs `MethodInfo { name, request, response }`
and `examples/main.rs` reads `method.request` / `method.response`.  The two
files contradict each other (the crate cannot compile with the declared
struct).  `MethodInfoDeclared` records the struct as declared;
`MethodInfo` records the shape actually constructed and consumed, which is
the one `list_services` produces. -/

/-- `MethodInfo` exactly as declared in `src/service_info.rs`: only `name`. -/
structure MethodInfoDeclared where
  name : String
  deriving Repr, DecidableEq

/-- `MethodInfo` as constructed by `list_services` in `src/reflection.rs`. -/
structure MethodInfo where
  name : String
  request : String
  response : String
  deriving Repr, DecidableEq

/-- `ServiceInfo` (`src/service_info.rs`): package, service name, methods. -/
structure ServiceInfo where
  package : String
  service : String
  methods : List MethodInfo
  deriving Repr, DecidableEq

/-! ## Errors and outcomes -/

/-- The distinct error values the client constructs (all `Box<dyn Error>`
strings in the Rust code); classified by construction site. -/
inductive RError where
  /-- a tonic `Status` propagated with `?` (stream open or stream item). -/
  | transport (status : String)
  /-- the literal `"No response received"` error of `make_request`. -/
  | noResponse
  /-- an `"Expected a ... variant"` error (full message recorded). -/
  | unexpectedVariant (msg : String)
  /-- a `prost::DecodeError` propagated with `?` in `get_file_descriptor`. -/
  | decodeFailure (msg : String)
  /-- a `format!`-built missing-field error of `list_services`. -/
  | missingField (msg : String)
  deriving Repr, DecidableEq

/-- The error text the caller observes, as produced by the Rust code. -/
def RError.message : RError → String
  | .transport status => status
  | .noResponse => "No response received"
  | .unexpectedVariant msg => msg
  | .decodeFailure msg => msg
  | .missingField msg => msg

/-- Result of running a piece of the client: a value, a returned error, or a
Rust panic (the code can panic through `.expect`). -/
inductive Outcome (α : Type) where
  | ok (a : α)
  | error (e : RError)
  | panicked (msg : String)
  deriving Repr, DecidableEq

/-- What the transport and server deliver for one exchange. -/
inductive ExchangeReply where
  /-- `server_reflection_info(...)` itself fails (stream cannot be opened). -/
  | transportFailure (status : String)
  /-- the inbound stream ends without yielding any message. -/
  | streamEnd
  /-- the inbound stream yields `Some(Err(status))`. -/
  | streamFailure (status : String)
  /-- the inbound stream yields `Some(Ok(resp))` with
  `resp.message_response = mr` (`None` when the oneof is absent). -/
  | message (mr : Option MessageResponse)
  deriving Repr, DecidableEq

/-- Environment of one client run: the reply delivered for the `i`-th exchange
the client opens, given the request sent on it. -/
abbrev Env := Nat → ServerReflectionRequest → ExchangeReply

/-- An outcome paired with the trace of requests issued, in order. -/
abbrev OutcomeT (α : Type) := Outcome α × List ServerReflectionRequest

/-! ## Rust `{:?}` formatting used in the error messages -/

/-- Rust `Debug` for a `String`: quoted.  (Escaping of quotes, backslashes and
control characters inside the string is not modelled; no claim depends on
such inputs.) -/
def strDebug (s : String) : String := "\"" ++ s ++ "\""

/-- Rust `Debug` for an `Option<String>`: `Some("v")` or `None`. -/
def optDebug : Option String → String
  | some s => "Some(" ++ strDebug s ++ ")"
  | none => "None"

/-! ## The operations of `ReflectionClient` -/

/-- The phase-1 request `list_services` sends: empty host, oneof
`ListServices(String::new())`. -/
def listServicesRequest : ServerReflectionRequest :=
  { host := "", message_request := some (.listServices "") }

/-- The request `get_file_descriptor` sends: empty host, oneof
`FileContainingSymbol(symbol)`. -/
def fileContainingSymbolRequest (symbol : String) : ServerReflectionRequest :=
  { host := "", message_request := some (.fileContainingSymbol symbol) }

/-- `ReflectionClient::make_request` for the `i`-th exchange of the run: opens
one stream carrying `request`, reads at most one inbound message.  Mirrors the
`?` propagation, the `"No response received"` error, and the
`.expect("some MessageResponse")` panic of the source. -/
def make_request (env : Env) (i : Nat) (request : ServerReflectionRequest) :
    Outcome MessageResponse :=
  match env i request with
  | .transportFailure status => .error (.transport status)
  | .streamEnd => .error .noResponse
  | .streamFailure status => .error (.transport status)
  | .message (some m) => .ok m
  | .message none => .panicked "some MessageResponse"

/-- The decode loop of `get_file_descriptor`: decode every payload in order,
propagating the first decode failure with `?`. -/
def decodeAll (decode : Bytes → Except String FileDescriptorProto) :
    List Bytes → Outcome (List FileDescriptorProto)
  | [] => .ok []
  | b :: rest =>
    match decode b with
    | .error e => .error (.decodeFailure e)
    | .ok fd =>
      match decodeAll decode rest with
      | .ok fds => .ok (fd :: fds)
      | .error e => .error e
      | .panicked m => .panicked m

/-- Outcome part of `ReflectionClient::get_file_descriptor(symbol)` when its
exchange is the `i`-th of the run: require a `FileDescriptorResponse`,
otherwise fail with the `"Expected a FileDescriptorResponse variant"` error;
decode every payload. -/
def gfdResult (decode : Bytes → Except String FileDescriptorProto) (env : Env)
    (i : Nat) (symbol : String) : Outcome (List FileDescriptorProto) :=
  match make_request env i (fileContainingSymbolRequest symbol) with
  | .ok (.fileDescriptorResponse descriptor_response) =>
    decodeAll decode descriptor_response.file_descriptor_proto
  | .ok _ => .error (.unexpectedVariant "Expected a FileDescriptorResponse variant")
  | .error e => .error e
  | .panicked m => .panicked m

/-- `ReflectionClient::get_file_descriptor(symbol)` with its request trace
(it always issues exactly its one exchange). -/
def get_file_descriptor (decode : Bytes → Except String FileDescriptorProto)
    (env : Env) (i : Nat) (symbol : String) : OutcomeT (List FileDescriptorProto) :=
  (gfdResult decode env i symbol, [fileContainingSymbolRequest symbol])

/-- The per-method closure of `list_services`: check `name`, then
`input_type`, then `output_type`, each absence becoming the exact
`format!` error of the source; on success build `MethodInfo`. -/
def processMethod (svcName : Option String) (method : MethodDescriptorProto) :
    Outcome MethodInfo :=
  match method.name with
  | none => .error (.missingField ("Method name is missing for service " ++ optDebug svcName))
  | some name =>
    match method.input_type with
    | none => .error (.missingField
        ("Request type is missing for method " ++ strDebug name ++
          " in service " ++ optDebug svcName))
    | some request =>
      match method.output_type with
      | none => .error (.missingField
          ("Response type is missing for method " ++ strDebug name ++
            " in service " ++ optDebug svcName))
      | some response => .ok { name := name, request := request, response := response }

/-- `service.method.into_iter().map(...).collect::<Result<Vec<_>, _>>()`:
process the methods in order, stopping at the first failure. -/
def collectMethods (svcName : Option String) :
    List MethodDescriptorProto → Outcome (List MethodInfo)
  | [] => .ok []
  | m :: rest =>
    match processMethod svcName m with
    | .error e => .error e
    | .panicked s => .panicked s
    | .ok mi =>
      match collectMethods svcName rest with
      | .ok mis => .ok (mi :: mis)
      | .error e => .error e
      | .panicked s => .panicked s

/-- The per-service body of `list_services`: collect the methods, then require
the file descriptor's `package`, then the service's `name`, in that order,
with the exact `format!` errors of the source. -/
def processService (package_field : Option String)
    (service : ServiceDescriptorProto) : Outcome ServiceInfo :=
  match collectMethods service.name service.method with
  | .error e => .error e
  | .panicked s => .panicked s
  | .ok methods =>
    match package_field with
    | none => .error (.missingField
        ("Package name is missing for service " ++ optDebug service.name))
    | some package =>
      match service.name with
      | none => .error (.missingField ("Service name is missing for package " ++ package))
      | some service_name =>
        .ok { package := package, service := service_name, methods := methods }

/-- The inner `for service in file_descriptor.service` loop: validate and
materialize each service definition in descriptor order. -/
def collectServices (package_field : Option String) :
    List ServiceDescriptorProto → Outcome (List ServiceInfo)
  | [] => .ok []
  | s :: rest =>
    match processService package_field s with
    | .error e => .error e
    | .panicked m => .panicked m
    | .ok info =>
      match collectServices package_field rest with
      | .ok infos => .ok (info :: infos)
      | .error e => .error e
      | .panicked m => .panicked m

/-- Process one decoded file descriptor: every service definition inside it,
in order, against the descriptor's package. -/
def processFileDescriptor (fd : FileDescriptorProto) : Outcome (List ServiceInfo) :=
  collectServices fd.package fd.service

/-- The `for file_descriptor in descriptors` loop: services of earlier
descriptors precede those of later ones. -/
def processDescriptors : List FileDescriptorProto → Outcome (List ServiceInfo)
  | [] => .ok []
  | fd :: rest =>
    match processFileDescriptor fd with
    | .error e => .error e
    | .panicked m => .panicked m
    | .ok infos =>
      match processDescriptors rest with
      | .ok more => .ok (infos ++ more)
      | .error e => .error e
      | .panicked m => .panicked m

/-- One phase-2 step for one discovered name: fetch the descriptors
(`get_file_descriptor`) and assemble their services. -/
def fetchServices (decode : Bytes → Except String FileDescriptorProto)
    (env : Env) (i : Nat) (name : String) : Outcome (List ServiceInfo) :=
  match gfdResult decode env i name with
  | .ok descriptors => processDescriptors descriptors
  | .error e => .error e
  | .panicked m => .panicked m

/-- The `for service in services_response.service` loop of `list_services`,
with `i` the exchange number of the next phase-2 exchange: one exchange per
name, in order, appending results in that order; any failure aborts the loop
(accumulated results are discarded). -/
def discoverLoop (decode : Bytes → Except String FileDescriptorProto)
    (env : Env) : Nat → List ServiceResponse → OutcomeT (List ServiceInfo)
  | _, [] => (.ok [], [])
  | i, s :: rest =>
    match fetchServices decode env i s.name with
    | .ok infos =>
      match discoverLoop decode env (i + 1) rest with
      | (.ok restInfos, tr) =>
        (.ok (infos ++ restInfos), fileContainingSymbolRequest s.name :: tr)
      | (.error e, tr) => (.error e, fileContainingSymbolRequest s.name :: tr)
      | (.panicked m, tr) => (.panicked m, fileContainingSymbolRequest s.name :: tr)
    | .error e => (.error e, [fileContainingSymbolRequest s.name])
    | .panicked m => (.panicked m, [fileContainingSymbolRequest s.name])

/-- `ReflectionClient::list_services`: exchange 0 carries the `ListServices`
request; its response must be the `ListServicesResponse` variant, otherwise
the `"Expected a ListServicesResponse variant"` error; then one phase-2
exchange per returned name. -/
def list_services (decode : Bytes → Except String FileDescriptorProto)
    (env : Env) : OutcomeT (List ServiceInfo) :=
  match make_request env 0 listServicesRequest with
  | .ok (.listServicesResponse services_response) =>
    match discoverLoop decode env 1 services_response.service with
    | (r, tr) => (r, listServicesRequest :: tr)
  | .ok _ => (.error (.unexpectedVariant "Expected a ListServicesResponse variant"),
      [listServicesRequest])
  | .error e => (.error e, [listServicesRequest])
  | .panicked m => (.panicked m, [listServicesRequest])

/-- `true` exactly on the `listServicesResponse` variant. -/
def isListServicesVariant : MessageResponse → Bool
  | .listServicesResponse _ => true
  | _ => false

/-- `true` exactly on the `fileDescriptorResponse` variant. -/
def isFileDescriptorVariant : MessageResponse → Bool
  | .fileDescriptorResponse _ => true
  | _ => false

end GrpcEase

namespace GrpcEase

/-! ## Helper lemmas about the discovery loop (shared by several claims) -/

/-- If every phase-2 step succeeds, the loop returns the per-step results
concatenated in step order, and its trace is one `FileContainingSymbol`
request per name, in order. -/
theorem discoverLoop_all_ok (decode : Bytes → Except String FileDescriptorProto)
    (env : Env) :
    ∀ (names : List ServiceResponse) (i : Nat) (F : Nat → List ServiceInfo),
    (∀ j (hj : j < names.length),
        fetchServices decode env (i + j) (names.get ⟨j, hj⟩).name = .ok (F j)) →
    discoverLoop decode env i names =
      (.ok (((List.range names.length).map F).flatten),
        names.map (fun s => fileContainingSymbolRequest s.name))
  | [], i, F, _ => by simp [discoverLoop]
  | s :: rest, i, F, h => by
    have h0 : fetchServices decode env i s.name = .ok (F 0) := by
      have := h 0 (by simp)
      simpa using this
    have hrec := discoverLoop_all_ok decode env rest (i + 1) (fun j => F (j + 1))
      (fun j hj => by
        have hj' : j + 1 < (s :: rest).length := by simpa using Nat.succ_lt_succ hj
        have := h (j + 1) hj'
        have harith : i + (j + 1) = i + 1 + j := by omega
        rw [harith] at this
        simpa using this)
    simp only [discoverLoop, h0, hrec]
    simp only [List.range_succ_eq_map, List.map_map, List.length_cons, List.map_cons,
      List.flatten_cons]
    rfl

/-- If the phase-2 steps before step `k` succeed and step `k` fails with
error `e`, the loop returns exactly that error — earlier results are
discarded — and its trace shows each of the first `k + 1` exchanges issued
once, in order, with no retry. -/
theorem discoverLoop_error_at (decode : Bytes → Except String FileDescriptorProto)
    (env : Env) :
    ∀ (names : List ServiceResponse) (i k : Nat) (e : RError) (hk : k < names.length),
    (∀ j (hj : j < k), ∃ v,
        fetchServices decode env (i + j) (names.get ⟨j, Nat.lt_trans hj hk⟩).name = .ok v) →
    fetchServices decode env (i + k) (names.get ⟨k, hk⟩).name = .error e →
    discoverLoop decode env i names =
      (.error e, (names.take (k + 1)).map (fun s => fileContainingSymbolRequest s.name))
  | [], _, k, _, hk, _, _ => by simp at hk
  | s :: rest, i, 0, e, hk, _, herr => by
    have h0 : fetchServices decode env i s.name = .error e := by simpa using herr
    simp [discoverLoop, h0]
  | s :: rest, i, k + 1, e, hk, hpre, herr => by
    obtain ⟨v, hv⟩ := hpre 0 (Nat.succ_pos k)
    have h0 : fetchServices decode env i s.name = .ok v := by simpa using hv
    have hk' : k < rest.length := Nat.lt_of_succ_lt_succ hk
    have hrec := discoverLoop_error_at decode env rest (i + 1) k e hk'
      (fun j hj => by
        obtain ⟨w, hw⟩ := hpre (j + 1) (Nat.succ_lt_succ hj)
        refine ⟨w, ?_⟩
        have harith : i + (j + 1) = i + 1 + j := by omega
        rw [harith] at hw
        simpa using hw)
      (by
        have harith : i + (k + 1) = i + 1 + k := by omega
        rw [harith] at herr
        simpa using herr)
    simp [discoverLoop, h0, hrec]

/-- When the loop succeeds, its trace is one `FileContainingSymbol` request
per discovered name, in order (duplicates included). -/
theorem discoverLoop_ok_trace (decode : Bytes → Except String FileDescriptorProto)
    (env : Env) :
    ∀ (names : List ServiceResponse) (i : Nat) (out : List ServiceInfo),
    (discoverLoop decode env i names).1 = .ok out →
    (discoverLoop decode env i names).2 =
      names.map (fun s => fileContainingSymbolRequest s.name)
  | [], _, _, _ => by simp [discoverLoop]
  | s :: rest, i, out, h => by
    cases hf : fetchServices decode env i s.name with
    | ok infos =>
      cases hr : discoverLoop decode env (i + 1) rest with
      | mk r tr =>
        cases r with
        | ok restInfos =>
          have := discoverLoop_ok_trace decode env rest (i + 1) restInfos
            (by rw [hr])
          rw [hr] at this
          simp only [discoverLoop, hf, hr]
          simpa using this
        | error e => simp [discoverLoop, hf, hr] at h
        | panicked m => simp [discoverLoop, hf, hr] at h
    | error e => simp [discoverLoop, hf] at h
    | panicked m => simp [discoverLoop, hf] at h

end GrpcEase

namespace GrpcEase

/-! ## Concrete scenario values -/

/-- The decoded descriptor of the spec's `pkg.Greeter` scenario. -/
def greeterFd : FileDescriptorProto :=
  { package := some "pkg",
    service := [{ name := some "Greeter",
                  method := [{ name := some "SayHello",
                               input_type := some "pkg.HelloRequest",
                               output_type := some "pkg.HelloReply" }] }] }

/-- A server behaviour for the `pkg.Greeter` scenario: exchange 0 answers with
one service name, every later exchange with one descriptor payload. -/
def greeterEnv : Env := fun i _ =>
  if i = 0 then .message (some (.listServicesResponse ⟨[⟨"pkg.Greeter"⟩]⟩))
  else .message (some (.fileDescriptorResponse ⟨[[10]]⟩))

/-- A decoder behaviour under which the scenario payload decodes to
`greeterFd`. -/
def greeterDecode : Bytes → Except String FileDescriptorProto :=
  fun _ => .ok greeterFd

end GrpcEase

namespace GrpcEase

/-- C1: on the `pkg.Greeter` scenario, the catalog `list_services` builds
carries, for its one method entry, all three fields — name, request type and
response type — as constructed in `src/reflection.rs`.  (The `MethodInfo`
struct declared in `src/service_info.rs` has only a `name` field and cannot
represent this entry; see `MethodInfoDeclared`.) -/
theorem C1_method_entry_fields :
    list_services greeterDecode greeterEnv =
      (.ok [{ package := "pkg", service := "Greeter",
              methods := [{ name := "SayHello", request := "pkg.HelloRequest",
                            response := "pkg.HelloReply" }] }],
        [listServicesRequest, fileContainingSymbolRequest "pkg.Greeter"]) := by
  rfl

/-- C2: the claim that no server-controlled input causes a panic fails on the
code: a delivered response whose `message_response` oneof is absent makes
`make_request` panic through `.expect("some MessageResponse")`, and the panic
escapes `list_services` instead of being returned as a named error. -/
theorem C2_absent_payload_panics :
    make_request (fun _ _ => .message none) 0 listServicesRequest =
      .panicked "some MessageResponse" ∧
    list_services (fun _ => .error "") (fun _ _ => .message none) =
      (.panicked "some MessageResponse", [listServicesRequest]) :=
  ⟨rfl, rfl⟩

/-- C5: a phase-1 response of any variant other than `ListServicesResponse`
makes `list_services` fail with the `"Expected a ListServicesResponse
variant"` error, and a `FileContainingSymbol` response of any variant other
than `FileDescriptorResponse` makes `get_file_descriptor` fail with the
`"Expected a FileDescriptorResponse variant"` error. -/
theorem C5_unexpected_variant :
    (∀ (decode : Bytes → Except String FileDescriptorProto) (env : Env)
        (m : MessageResponse),
      env 0 listServicesRequest = .message (some m) →
      isListServicesVariant m = false →
      list_services decode env =
        (.error (.unexpectedVariant "Expected a ListServicesResponse variant"),
          [listServicesRequest])) ∧
    (∀ (decode : Bytes → Except String FileDescriptorProto) (env : Env)
        (i : Nat) (symbol : String) (m : MessageResponse),
      env i (fileContainingSymbolRequest symbol) = .message (some m) →
      isFileDescriptorVariant m = false →
      get_file_descriptor decode env i symbol =
        (.error (.unexpectedVariant "Expected a FileDescriptorResponse variant"),
          [fileContainingSymbolRequest symbol])) := by
  constructor
  · intro decode env m henv hm
    cases m <;> simp_all [list_services, make_request, isListServicesVariant]
  · intro decode env i symbol m henv hm
    cases m <;>
      simp_all [get_file_descriptor, gfdResult, make_request, isFileDescriptorVariant]

/-- C5 witness: a server answering phase 1 with a `FileDescriptorResponse`,
and a `FileContainingSymbol` exchange answered with a `ListServicesResponse`. -/
theorem C5_unexpected_variant_witness :
    list_services (fun _ => .error "")
        (fun _ _ => .message (some (.fileDescriptorResponse ⟨[]⟩))) =
      (.error (.unexpectedVariant "Expected a ListServicesResponse variant"),
        [listServicesRequest]) ∧
    get_file_descriptor (fun _ => .error "")
        (fun _ _ => .message (some (.listServicesResponse ⟨[]⟩))) 0 "pkg.Greeter" =
      (.error (.unexpectedVariant "Expected a FileDescriptorResponse variant"),
        [fileContainingSymbolRequest "pkg.Greeter"]) :=
  ⟨C5_unexpected_variant.1 _ _ _ rfl rfl,
   C5_unexpected_variant.2 _ _ 0 "pkg.Greeter" _ rfl rfl⟩

/-- C9: when the inbound stream of an exchange ends before producing any
message, `make_request` fails with the `noResponse` error (message
`"No response received"`), and this aborts the surrounding `list_services`
or `get_file_descriptor` call. -/
theorem C9_no_response :
    (∀ (env : Env) (i : Nat) (req : ServerReflectionRequest),
      env i req = .streamEnd → make_request env i req = .error .noResponse) ∧
    RError.message .noResponse = "No response received" ∧
    (∀ (decode : Bytes → Except String FileDescriptorProto) (env : Env),
      env 0 listServicesRequest = .streamEnd →
      list_services decode env = (.error .noResponse, [listServicesRequest])) ∧
    (∀ (decode : Bytes → Except String FileDescriptorProto) (env : Env)
        (i : Nat) (symbol : String),
      env i (fileContainingSymbolRequest symbol) = .streamEnd →
      get_file_descriptor decode env i symbol =
        (.error .noResponse, [fileContainingSymbolRequest symbol])) := by
  refine ⟨?_, rfl, ?_, ?_⟩
  · intro env i req h
    simp [make_request, h]
  · intro decode env h
    simp [list_services, make_request, h]
  · intro decode env i symbol h
    simp [get_file_descriptor, gfdResult, make_request, h]

/-- C9 witness: a transport whose inbound streams always end immediately. -/
theorem C9_no_response_witness :
    make_request (fun _ _ => .streamEnd) 0 listServicesRequest =
      .error .noResponse ∧
    list_services (fun _ => .error "") (fun _ _ => .streamEnd) =
      (.error .noResponse, [listServicesRequest]) ∧
    get_file_descriptor (fun _ => .error "") (fun _ _ => .streamEnd) 3 "pkg.Greeter" =
      (.error .noResponse, [fileContainingSymbolRequest "pkg.Greeter"]) :=
  ⟨C9_no_response.1 _ 0 _ rfl,
   C9_no_response.2.2.1 _ _ rfl,
   C9_no_response.2.2.2 _ _ 3 "pkg.Greeter" rfl⟩

end GrpcEase

namespace GrpcEase

/-- The inner service loop maps validated service definitions in descriptor
order when every one of them validates. -/
theorem collectServices_ok_map (pkg : Option String) :
    ∀ (l : List ServiceDescriptorProto) (g : ServiceDescriptorProto → ServiceInfo),
    (∀ s ∈ l, processService pkg s = .ok (g s)) →
    collectServices pkg l = .ok (l.map g)
  | [], _, _ => by simp [collectServices]
  | s :: rest, g, h => by
    have h0 : processService pkg s = .ok (g s) := h s (by simp)
    have hrec := collectServices_ok_map pkg rest g (fun x hx => h x (by simp [hx]))
    simp [collectServices, h0, hrec]

/-- C3: if the phase-2 work for the first `k` names succeeds and the work for
name `k` fails with error `e`, then `list_services` returns exactly that
error — the services already assembled for names `0..k-1` are discarded, no
partial catalog is returned — and the request trace shows each exchange up to
and including the failing one issued exactly once, with no retry. -/
theorem C3_fail_fast (decode : Bytes → Except String FileDescriptorProto)
    (env : Env) (names : List ServiceResponse) (k : Nat) (e : RError)
    (hk : k < names.length)
    (henv : env 0 listServicesRequest = .message (some (.listServicesResponse ⟨names⟩)))
    (hpre : ∀ j (hj : j < k), ∃ v,
        fetchServices decode env (1 + j) (names.get ⟨j, Nat.lt_trans hj hk⟩).name = .ok v)
    (herr : fetchServices decode env (1 + k) (names.get ⟨k, hk⟩).name = .error e) :
    list_services decode env =
      (.error e, listServicesRequest ::
        (names.take (k + 1)).map (fun s => fileContainingSymbolRequest s.name)) := by
  have hloop := discoverLoop_error_at decode env names 1 k e hk hpre herr
  simp [list_services, make_request, henv, hloop]

/-- C6: (1) when phase 1 returns `names` and the phase-2 work for the `j`-th
name yields the services `F j`, the catalog is the concatenation of the `F j`
in exactly the order of `names`; (2) within one decoded file descriptor, the
assembled services follow descriptor order. -/
theorem C6_order_preservation :
    (∀ (decode : Bytes → Except String FileDescriptorProto) (env : Env)
        (names : List ServiceResponse) (F : Nat → List ServiceInfo),
      env 0 listServicesRequest = .message (some (.listServicesResponse ⟨names⟩)) →
      (∀ j (hj : j < names.length),
          fetchServices decode env (1 + j) (names.get ⟨j, hj⟩).name = .ok (F j)) →
      (list_services decode env).1 =
        .ok (((List.range names.length).map F).flatten)) ∧
    (∀ (fd : FileDescriptorProto) (g : ServiceDescriptorProto → ServiceInfo),
      (∀ s ∈ fd.service, processService fd.package s = .ok (g s)) →
      processFileDescriptor fd = .ok (fd.service.map g)) := by
  constructor
  · intro decode env names F henv hall
    have hloop := discoverLoop_all_ok decode env names 1 F hall
    simp [list_services, make_request, henv, hloop]
  · intro fd g h
    exact collectServices_ok_map fd.package fd.service g h

/-- C7: (1) when phase 1 returns `names` and the call succeeds, the trace is
the phase-1 request followed by exactly one `FileContainingSymbol` request per
name, in order — `names.length` phase-2 exchanges, duplicates not
deduplicated; (2) zero names yield the successful empty catalog after the
single phase-1 exchange; (3) a decoded file descriptor with zero service
definitions contributes nothing (even its package is not inspected). -/
theorem C7_exchange_per_name :
    (∀ (decode : Bytes → Except String FileDescriptorProto) (env : Env)
        (names : List ServiceResponse) (out : List ServiceInfo),
      env 0 listServicesRequest = .message (some (.listServicesResponse ⟨names⟩)) →
      (list_services decode env).1 = .ok out →
      (list_services decode env).2 =
        listServicesRequest :: names.map (fun s => fileContainingSymbolRequest s.name)) ∧
    (∀ (decode : Bytes → Except String FileDescriptorProto) (env : Env),
      env 0 listServicesRequest = .message (some (.listServicesResponse ⟨[]⟩)) →
      list_services decode env = (.ok [], [listServicesRequest])) ∧
    (∀ package : Option String, processFileDescriptor ⟨package, []⟩ = .ok []) := by
  refine ⟨?_, ?_, fun _ => rfl⟩
  · intro decode env names out henv hok
    cases hl : discoverLoop decode env 1 names with
    | mk r tr =>
      have hls : list_services decode env = (r, listServicesRequest :: tr) := by
        simp [list_services, make_request, henv, hl]
      rw [hls] at hok
      have hr : r = .ok out := hok
      have htr := discoverLoop_ok_trace decode env names 1 out (by rw [hl, hr])
      rw [hl] at htr
      rw [hls]
      simpa using htr
  · intro decode env henv
    simp [list_services, make_request, henv, discoverLoop]

end GrpcEase

namespace GrpcEase

/-! ## Concrete two-service runs used as witnesses -/

/-- A run discovering two services where the second phase-2 exchange fails. -/
def envSecondFails : Env := fun i _ =>
  if i = 0 then .message (some (.listServicesResponse ⟨[⟨"a.A"⟩, ⟨"b.B"⟩]⟩))
  else if i = 1 then .message (some (.fileDescriptorResponse ⟨[]⟩))
  else .transportFailure "transport error"

/-- Descriptor delivered for symbol `a.A` in the two-service run. -/
def fdA : FileDescriptorProto :=
  { package := some "a", service := [{ name := some "A", method := [] }] }

/-- Descriptor delivered for symbol `b.B` in the two-service run. -/
def fdB : FileDescriptorProto :=
  { package := some "b", service := [{ name := some "B", method := [] }] }

/-- Catalog entry assembled from `fdA`. -/
def infoA : ServiceInfo := { package := "a", service := "A", methods := [] }

/-- Catalog entry assembled from `fdB`. -/
def infoB : ServiceInfo := { package := "b", service := "B", methods := [] }

/-- Decoder behaviour of the two-service run: payload `[1]` is `fdA`,
anything else `fdB`. -/
def decodeAB : Bytes → Except String FileDescriptorProto :=
  fun b => if b = [1] then .ok fdA else .ok fdB

/-- A run discovering two services where both phase-2 exchanges succeed. -/
def envTwoOk : Env := fun i _ =>
  if i = 0 then .message (some (.listServicesResponse ⟨[⟨"a.A"⟩, ⟨"b.B"⟩]⟩))
  else if i = 1 then .message (some (.fileDescriptorResponse ⟨[[1]]⟩))
  else .message (some (.fileDescriptorResponse ⟨[[2]]⟩))

/-- C3 witness: two discovered services, the second fetch fails with a
transport error; the whole call returns that error and the first service is
not returned. -/
theorem C3_fail_fast_witness :
    list_services decodeAB envSecondFails =
      (.error (.transport "transport error"),
        [listServicesRequest, fileContainingSymbolRequest "a.A",
          fileContainingSymbolRequest "b.B"]) :=
  C3_fail_fast decodeAB envSecondFails [⟨"a.A"⟩, ⟨"b.B"⟩] 1
    (.transport "transport error") (by decide) rfl
    (fun j hj => by
      match j, hj with
      | 0, _ => exact ⟨[], rfl⟩)
    rfl

/-- C6 witness: two discovered services, both fetched; the catalog lists the
service of the first name before the service of the second, and `fdA`'s
services appear in descriptor order. -/
theorem C6_order_preservation_witness :
    (list_services decodeAB envTwoOk).1 = .ok [infoA, infoB] ∧
    processFileDescriptor fdA = .ok [infoA] :=
  ⟨C6_order_preservation.1 decodeAB envTwoOk [⟨"a.A"⟩, ⟨"b.B"⟩]
      (fun j => if j = 0 then [infoA] else [infoB]) rfl
      (fun j hj => by
        match j, hj with
        | 0, _ => exact rfl
        | 1, _ => exact rfl),
   C6_order_preservation.2 fdA (fun _ => infoA)
      (by intro s hs; simp [fdA] at hs; subst hs; rfl)⟩

/-- C7 witness: the two-service run issues exactly one `FileContainingSymbol`
exchange per name after the phase-1 exchange; an empty name list yields the
empty catalog; a service-free descriptor contributes nothing. -/
theorem C7_exchange_per_name_witness :
    (list_services decodeAB envTwoOk).2 =
      [listServicesRequest, fileContainingSymbolRequest "a.A",
        fileContainingSymbolRequest "b.B"] ∧
    list_services decodeAB
        (fun _ _ => .message (some (.listServicesResponse ⟨[]⟩))) =
      (.ok [], [listServicesRequest]) ∧
    processFileDescriptor ⟨some "pkg", []⟩ = .ok [] :=
  ⟨C7_exchange_per_name.1 decodeAB envTwoOk [⟨"a.A"⟩, ⟨"b.B"⟩] [infoA, infoB]
      rfl rfl,
   C7_exchange_per_name.2.1 decodeAB _ rfl,
   C7_exchange_per_name.2.2 (some "pkg")⟩

end GrpcEase

namespace GrpcEase

/-- The decode loop maps the decoder over the payloads in response order when
every payload decodes. -/
theorem decodeAll_ok_map (decode : Bytes → Except String FileDescriptorProto) :
    ∀ (l : List Bytes) (g : Bytes → FileDescriptorProto),
    (∀ b ∈ l, decode b = .ok (g b)) →
    decodeAll decode l = .ok (l.map g)
  | [], _, _ => by simp [decodeAll]
  | b :: rest, g, h => by
    have h0 : decode b = .ok (g b) := h b (by simp)
    have hrec := decodeAll_ok_map decode rest g (fun x hx => h x (by simp [hx]))
    simp [decodeAll, h0, hrec]

/-- If the payloads before index `k` decode and payload `k` fails, the decode
loop fails with that decode error and yields no descriptors. -/
theorem decodeAll_error_at (decode : Bytes → Except String FileDescriptorProto) :
    ∀ (l : List Bytes) (k : Nat) (e : String) (hk : k < l.length),
    (∀ j (hj : j < k), ∃ fd, decode (l.get ⟨j, Nat.lt_trans hj hk⟩) = .ok fd) →
    decode (l.get ⟨k, hk⟩) = .error e →
    decodeAll decode l = .error (.decodeFailure e)
  | [], _, _, hk, _, _ => by simp at hk
  | b :: rest, 0, e, _, _, herr => by
    have h0 : decode b = .error e := by simpa using herr
    simp [decodeAll, h0]
  | b :: rest, k + 1, e, hk, hpre, herr => by
    obtain ⟨fd, hfd⟩ := hpre 0 (Nat.succ_pos k)
    have h0 : decode b = .ok fd := by simpa using hfd
    have hk' : k < rest.length := Nat.lt_of_succ_lt_succ hk
    have hrec := decodeAll_error_at decode rest k e hk'
      (fun j hj => by
        obtain ⟨w, hw⟩ := hpre (j + 1) (Nat.succ_lt_succ hj)
        exact ⟨w, by simpa using hw⟩)
      (by simpa using herr)
    simp [decodeAll, h0, hrec]

/-- C8: for a `get_file_descriptor` exchange answered with a
`FileDescriptorResponse`, (1) if every raw payload decodes, the call returns
the decoded descriptors in response order; (2) if the payloads before index
`k` decode and payload `k` fails structurally, the whole call fails with that
decode error and no descriptors are returned. -/
theorem C8_decode_payloads :
    (∀ (decode : Bytes → Except String FileDescriptorProto) (env : Env)
        (i : Nat) (symbol : String) (payloads : List Bytes)
        (g : Bytes → FileDescriptorProto),
      env i (fileContainingSymbolRequest symbol) =
        .message (some (.fileDescriptorResponse ⟨payloads⟩)) →
      (∀ b ∈ payloads, decode b = .ok (g b)) →
      get_file_descriptor decode env i symbol =
        (.ok (payloads.map g), [fileContainingSymbolRequest symbol])) ∧
    (∀ (decode : Bytes → Except String FileDescriptorProto) (env : Env)
        (i : Nat) (symbol : String) (payloads : List Bytes) (k : Nat)
        (e : String) (hk : k < payloads.length),
      env i (fileContainingSymbolRequest symbol) =
        .message (some (.fileDescriptorResponse ⟨payloads⟩)) →
      (∀ j (hj : j < k), ∃ fd, decode (payloads.get ⟨j, Nat.lt_trans hj hk⟩) = .ok fd) →
      decode (payloads.get ⟨k, hk⟩) = .error e →
      get_file_descriptor decode env i symbol =
        (.error (.decodeFailure e), [fileContainingSymbolRequest symbol])) := by
  constructor
  · intro decode env i symbol payloads g henv hall
    have hd := decodeAll_ok_map decode payloads g hall
    simp [get_file_descriptor, gfdResult, make_request, henv, hd]
  · intro decode env i symbol payloads k e hk henv hpre herr
    have hd := decodeAll_error_at decode payloads k e hk hpre herr
    simp [get_file_descriptor, gfdResult, make_request, henv, hd]

/-- Decoder behaviour for the C8 witness: payload `[2]` is structurally
invalid, everything else decodes to `fdA`. -/
def decodePartial : Bytes → Except String FileDescriptorProto :=
  fun b => if b = [2] then .error "invalid wire type" else .ok fdA

/-- C8 witness: a two-payload response fully decoded, and a two-payload
response whose second payload is truncated, failing the whole call. -/
theorem C8_decode_payloads_witness :
    get_file_descriptor decodePartial
        (fun _ _ => .message (some (.fileDescriptorResponse ⟨[[1], [1]]⟩)))
        1 "a.A" =
      (.ok [fdA, fdA], [fileContainingSymbolRequest "a.A"]) ∧
    get_file_descriptor decodePartial
        (fun _ _ => .message (some (.fileDescriptorResponse ⟨[[1], [2]]⟩)))
        1 "a.A" =
      (.error (.decodeFailure "invalid wire type"),
        [fileContainingSymbolRequest "a.A"]) :=
  ⟨C8_decode_payloads.1 decodePartial _ 1 "a.A" [[1], [1]] (fun _ => fdA) rfl
      (by intro b hb; simp at hb; simp [hb, decodePartial]),
   C8_decode_payloads.2 decodePartial _ 1 "a.A" [[1], [2]] 1 "invalid wire type"
      (by decide) rfl
      (fun j hj => by
        match j, hj with
        | 0, _ => exact ⟨fdA, rfl⟩)
      rfl⟩

/-- C4: each absent required field produces the exact missing-field error of
the source, naming the field and the derivable owning identity: (1) method
name, (2) request type, (3) response type, (4) file package (after the
methods validated), (5) service name (after the package was found); and (6)
any such failure in a phase-2 step makes the whole `list_services` call
return that error, producing no catalog. -/
theorem C4_missing_fields :
    (∀ (svcName : Option String) (it ot : Option String),
      processMethod svcName ⟨none, it, ot⟩ =
        .error (.missingField
          ("Method name is missing for service " ++ optDebug svcName))) ∧
    (∀ (svcName : Option String) (n : String) (ot : Option String),
      processMethod svcName ⟨some n, none, ot⟩ =
        .error (.missingField
          ("Request type is missing for method " ++ strDebug n ++
            " in service " ++ optDebug svcName))) ∧
    (∀ (svcName : Option String) (n it : String),
      processMethod svcName ⟨some n, some it, none⟩ =
        .error (.missingField
          ("Response type is missing for method " ++ strDebug n ++
            " in service " ++ optDebug svcName))) ∧
    (∀ (svc : ServiceDescriptorProto) (ms : List MethodInfo),
      collectMethods svc.name svc.method = .ok ms →
      processService none svc =
        .error (.missingField
          ("Package name is missing for service " ++ optDebug svc.name))) ∧
    (∀ (package : String) (methods : List MethodDescriptorProto)
        (ms : List MethodInfo),
      collectMethods none methods = .ok ms →
      processService (some package) ⟨none, methods⟩ =
        .error (.missingField ("Service name is missing for package " ++ package))) ∧
    (∀ (decode : Bytes → Except String FileDescriptorProto) (env : Env)
        (names : List ServiceResponse) (k : Nat) (msg : String)
        (hk : k < names.length),
      env 0 listServicesRequest = .message (some (.listServicesResponse ⟨names⟩)) →
      (∀ j (hj : j < k), ∃ v,
          fetchServices decode env (1 + j)
            (names.get ⟨j, Nat.lt_trans hj hk⟩).name = .ok v) →
      fetchServices decode env (1 + k) (names.get ⟨k, hk⟩).name =
        .error (.missingField msg) →
      (list_services decode env).1 = .error (.missingField msg)) := by
  refine ⟨fun _ _ _ => rfl, fun _ _ _ => rfl, fun _ _ _ => rfl, ?_, ?_, ?_⟩
  · intro svc ms h
    simp [processService, h]
  · intro package methods ms h
    simp [processService] at h ⊢
    simp [h]
  · intro decode env names k msg hk henv hpre herr
    have hloop := discoverLoop_error_at decode env names 1 k
      (.missingField msg) hk hpre herr
    simp [list_services, make_request, henv, hloop]

/-- Decoder behaviour for the C4 witness: every payload decodes to a
descriptor whose package is absent but whose service `S` is otherwise fine. -/
def decodeNoPackage : Bytes → Except String FileDescriptorProto :=
  fun _ => .ok ⟨none, [⟨some "S", []⟩]⟩

/-- A run discovering one service whose descriptor lacks its package. -/
def envNoPackage : Env := fun i _ =>
  if i = 0 then .message (some (.listServicesResponse ⟨[⟨"p.S"⟩]⟩))
  else .message (some (.fileDescriptorResponse ⟨[[1]]⟩))

/-- C4 witness: a missing package is reported naming the service, a missing
service name is reported naming the package, and a descriptor with a missing
package fails the whole `list_services` call. -/
theorem C4_missing_fields_witness :
    processService none ⟨some "Greeter", []⟩ =
      .error (.missingField "Package name is missing for service Some(\"Greeter\")") ∧
    processService (some "pkg") ⟨none, []⟩ =
      .error (.missingField "Service name is missing for package pkg") ∧
    (list_services decodeNoPackage envNoPackage).1 =
      .error (.missingField "Package name is missing for service Some(\"S\")") :=
  ⟨C4_missing_fields.2.2.2.1 ⟨some "Greeter", []⟩ [] rfl,
   C4_missing_fields.2.2.2.2.1 "pkg" [] [] rfl,
   C4_missing_fields.2.2.2.2.2 decodeNoPackage envNoPackage [⟨"p.S"⟩] 0
     "Package name is missing for service Some(\"S\")" (by decide) rfl
     (fun j hj => absurd hj (Nat.not_lt_zero j)) rfl⟩

/-- C10: the required-field checks of one service definition run in a fixed
order — each method's name, then input type, then output type, method by
method in sequence, then the file package, then the service's own name — so
with several simultaneous absences the earliest absence in that order is the
one reported. -/
theorem C10_validation_order :
    (∀ (svcName : Option String) (it ot : Option String),
      processMethod svcName ⟨none, it, ot⟩ =
        .error (.missingField
          ("Method name is missing for service " ++ optDebug svcName))) ∧
    (∀ (svcName : Option String) (n : String) (ot : Option String),
      processMethod svcName ⟨some n, none, ot⟩ =
        .error (.missingField
          ("Request type is missing for method " ++ strDebug n ++
            " in service " ++ optDebug svcName))) ∧
    (∀ (svcName : Option String) (n it : String),
      processMethod svcName ⟨some n, some it, none⟩ =
        .error (.missingField
          ("Response type is missing for method " ++ strDebug n ++
            " in service " ++ optDebug svcName))) ∧
    (∀ (svcName : Option String) (rest : List MethodDescriptorProto),
      collectMethods svcName (⟨none, none, none⟩ :: rest) =
        .error (.missingField
          ("Method name is missing for service " ++ optDebug svcName))) ∧
    processService none ⟨none, [⟨none, none, none⟩]⟩ =
      .error (.missingField "Method name is missing for service None") ∧
    processService none ⟨none, []⟩ =
      .error (.missingField "Package name is missing for service None") :=
  ⟨fun _ _ _ => rfl, fun _ _ _ => rfl, fun _ _ _ => rfl, fun _ _ => rfl, rfl, rfl⟩

end GrpcEase
